import Mathlib

/-
Shallow embedding of the yuchi CLI assistant (Rust) for claim checking.

Embedded source files:
  src/api.rs       : `ask_shapesai`, `tool_schemas`, `APP_ID`
  src/commands.rs  : `run_tool`
  src/errors.rs    : `YuchiError`
  src/config.rs    : `Config` (only loaded, never stored, by the driver)

External collaborators (reqwest transport, serde_json parsing, the base64
encoder, the filesystem, the interactive password prompt, the progress bar
and the process spawner) are modelled as an explicit environment record
whose fields supply the outcome of each effectful call, consumed in program
order.  The driver returns its `Result` value together with a trace of the
HTTP POSTs it issued, the commands it handed to the tool executor, and the
child processes the executor spawned.
-/

namespace Yuchi

/-- serde_json `Value`, as produced by the `json!` macro in api.rs.
Objects keep their fields as an association list in source order
(the concrete key order inside an object is never compared against
differently-ordered data by any theorem below). -/
inductive Json where
  | null : Json
  | bool (b : Bool) : Json
  | num (n : Int) : Json
  | str (s : String) : Json
  | arr (elems : List Json) : Json
  | obj (fields : List (String × Json)) : Json

/-- serde_json `Value::get` with a string key (object member lookup). -/
def Json.get : Json → String → Option Json
  | .obj fields, k => fields.lookup k
  | _, _ => none

/-- serde_json `Value::get` with a numeric index (array element lookup),
as in `choices.get(0)`. -/
def Json.getIdx : Json → Nat → Option Json
  | .arr elems, i => elems.get? i
  | _, _ => none

/-- serde_json `Value::as_str`. -/
def Json.asStr : Json → Option String
  | .str s => some s
  | _ => none

/-- serde_json `Value::as_array`. -/
def Json.asArray : Json → Option (List Json)
  | .arr elems => some elems
  | _ => none

/-- errors.rs: the `YuchiError` enum (api.rs and commands.rs never read the
`Display` text back, so the payload is kept as the raw message string). -/
inductive YuchiError where
  | Config (msg : String) : YuchiError
  | Api (msg : String) : YuchiError
  | Tool (msg : String) : YuchiError
  | Input (msg : String) : YuchiError
  | Image (msg : String) : YuchiError
deriving DecidableEq, Repr

/-- config.rs: the stored `Config` record. -/
structure Config where
  api_key : Option String
  app_id : Option String
  user_auth_token : Option String
  username : Option String
  user_id : Option String
  channel_id : Option String
deriving DecidableEq, Repr

/-- Captured output of a spawned child process, after commands.rs has run
`String::from_utf8_lossy` on both streams: `statusSuccess` is
`output.status.success()`. -/
structure ProcOutput where
  statusSuccess : Bool
  stdout : String
  stderr : String
deriving DecidableEq, Repr

/-- Environment for one `run_tool` invocation (commands.rs lines 191-232):
the outcome of `env::current_dir`, of the `prompt_password` confirmation,
and of `Command::new(..).output()` (`Except.error` = failed to spawn). -/
structure ToolEnv where
  currentDir : Except String String
  confirmation : Except String String
  spawnResult : Except String ProcOutput

/-
Character-list implementations of the Rust string primitives the sources
use.  (Lean's built-in `String` functions are avoided because they do not
reduce well; these mirror the Rust semantics directly.  Lowercasing and
whitespace classification are modelled on the ASCII range, which covers
every comparison the program performs.)
-/

/-- Rust `char::to_lowercase` restricted to ASCII letters. -/
def lowerChar (c : Char) : Char :=
  if 'A' ≤ c && c ≤ 'Z' then Char.ofNat (c.toNat + 32) else c

/-- Rust `str::to_lowercase`. -/
def rustToLower (s : String) : String :=
  ⟨s.data.map lowerChar⟩

/-- Rust `str::trim`: strip leading and trailing whitespace. -/
def rustTrim (s : String) : String :=
  ⟨((s.data.dropWhile Char.isWhitespace).reverse.dropWhile
      Char.isWhitespace).reverse⟩

/-- Rust `str::starts_with` with a string pattern. -/
def strStartsWith (s p : String) : Bool :=
  p.data.isPrefixOf s.data

/-- Rust `str::ends_with` with a string pattern. -/
def strEndsWith (s p : String) : Bool :=
  p.data.reverse.isPrefixOf s.data.reverse

/-- Drop the first `n` characters (Rust's post-`strip_prefix` remainder). -/
def strDrop (s : String) (n : Nat) : String :=
  ⟨s.data.drop n⟩

/-- Drop the last `n` characters (Rust's pre-`strip_suffix` remainder). -/
def strDropRight (s : String) (n : Nat) : String :=
  ⟨(s.data.reverse.drop n).reverse⟩

/-- Helper for `splitWhitespace`: `acc` holds the current fragment in
reverse. -/
def splitWsAux : List Char → List Char → List String
  | [], acc => if acc.isEmpty then [] else [⟨acc.reverse⟩]
  | c :: cs, acc =>
    if c.isWhitespace then
      if acc.isEmpty then splitWsAux cs []
      else ⟨acc.reverse⟩ :: splitWsAux cs []
    else splitWsAux cs (c :: acc)

/-- Rust `str::split_whitespace().collect::<Vec<_>>()`: split on whitespace,
dropping empty fragments. -/
def splitWhitespace (s : String) : List String :=
  splitWsAux s.data []

/-- commands.rs `run_tool`.  Returns the Rust `Result<(String, bool), YuchiError>`
paired with the list of child processes spawned (program, argument list).
The progress-bar argument and the `display_command_result` call are
terminal cosmetics and have no bearing on the returned value. -/
def run_tool (command : String) (env : ToolEnv) :
    Except YuchiError (String × Bool) × List (String × List String) :=
  match env.currentDir with
  | .error e => (.error (.Tool e), [])
  | .ok _current_dir =>
    match env.confirmation with
    | .error e => (.error (.Input e), [])
    | .ok confirmation =>
      if rustToLower (rustTrim confirmation) ≠ "y" then
        (.ok ("Command execution cancelled by user.", false), [])
      else
        match splitWhitespace command with
        | [] => (.error (.Tool "Empty command"), [])
        | program :: args =>
          match env.spawnResult with
          | .error e =>
            (.error (.Tool ("Failed to execute \x60" ++ command ++ "\x60: " ++ e)),
             [(program, args)])
          | .ok output =>
            (.ok ((if output.statusSuccess then
                "\x60" ++ command ++ "\x60 succeeded:\n" ++ output.stdout
              else
                "\x60" ++ command ++ "\x60 failed:\n" ++ output.stderr),
              output.statusSuccess), [(program, args)])

/-- One HTTP response as seen through the reqwest blocking API: the numeric
status, the outcome of `res.text()` (`none` = reading the body failed) and
the outcome of `res.json()` (`Except.error` = the body is not valid JSON).
api.rs calls at most one of the two on any given response. -/
structure HttpResponse where
  status : Nat
  text : Option String
  jsonBody : Except String Json

/-- An HTTP POST as assembled by api.rs: the custom headers set on the
request builder (in the order the source sets them) and the JSON body. -/
structure Request where
  headers : List (String × String)
  body : Json

/-- Observable effects of one `ask_shapesai` invocation: the POSTs sent to
the chat-completions endpoint, the command strings handed to `run_tool`,
and the child processes spawned by those `run_tool` calls. -/
structure Trace where
  posts : List Request
  toolRuns : List String
  spawns : List (String × List String)

/-- Probe results for the optional image path: `Path::exists`,
`Path::is_file`, `fs::read` (bytes) and `Path::extension` of that path. -/
structure ImageInfo where
  pathExists : Bool
  isFile : Bool
  readResult : Except String (List Nat)
  extension : Option String

/-- Environment of one `ask_shapesai` invocation.  `toolEnv k` is the
environment consumed by the (k+1)-th `run_tool` call; `parseArgsMap` is
`serde_json::from_str::<Map<String, Value>>` (used on a structured tool
call's `arguments` string), `parseJson` is
`serde_json::from_str::<Value>` (used on the fallback envelope's inner
text), `encodeBase64` is the base64 engine, and `statusDisplay` is the
`Display` rendering of a reqwest `StatusCode`. -/
structure ApiEnv where
  loadConfig : Except YuchiError Config
  imageInfo : ImageInfo
  encodeBase64 : List Nat → String
  firstSend : Except String HttpResponse
  secondSend : Except String HttpResponse
  parseArgsMap : String → Except String (List (String × Json))
  parseJson : String → Except String Json
  toolEnv : Nat → ToolEnv
  statusDisplay : Nat → String

/-- reqwest `StatusCode::is_success`: 200 ..= 299. -/
def isSuccessStatus (s : Nat) : Bool :=
  200 ≤ s && s ≤ 299

/-- Substring test on character lists: `needle` occurs somewhere in the
list (Rust `str::contains` with a string pattern). -/
def containsSub (needle : List Char) : List Char → Bool
  | [] => needle.isEmpty
  | c :: rest => needle.isPrefixOf (c :: rest) || containsSub needle rest

/-- Rust `str::contains` with a string pattern. -/
def strContains (hay needle : String) : Bool :=
  containsSub needle.data hay.data

/-- Rust `str::strip_prefix`. -/
def stripPre (s p : String) : Option String :=
  if strStartsWith s p then some (strDrop s p.data.length) else none

/-- Rust `str::strip_suffix`. -/
def stripSuf (s p : String) : Option String :=
  if strEndsWith s p then some (strDropRight s p.data.length) else none

/-- api.rs lines 49-53: the prompt rewritten for text extraction when an
image is attached and the prompt contains "text" case-insensitively. -/
def adjustedPrompt (prompt : String) (imagePresent : Bool) : String :=
  if imagePresent && strContains (rustToLower prompt) "text" then
    "Extract the text from this image: " ++ prompt
  else
    prompt

/-- api.rs lines 70-79: MIME type guessed from the path extension; `none`
is the `Unsupported image format` error case. -/
def mimeForExt : Option String → Option String
  | some e =>
    if e = "png" then some "image/png"
    else if e = "jpg" then some "image/jpeg"
    else if e = "jpeg" then some "image/jpeg"
    else none
  | none => none

/-- api.rs `tool_schemas()`: the single `run_shell_command` tool schema. -/
def tool_schemas : List Json :=
  [Json.obj [
    ("type", Json.str "function"),
    ("function", Json.obj [
      ("name", Json.str "run_shell_command"),
      ("description", Json.str "Run a shell command in the current directory"),
      ("parameters", Json.obj [
        ("type", Json.str "object"),
        ("properties", Json.obj [
          ("command", Json.obj [
            ("type", Json.str "string"),
            ("description", Json.str
              "The shell command to run (e.g., npm install express)")])]),
        ("required", Json.arr [Json.str "command"])])])]]

/-- The plain-text user message of api.rs lines 91-94. -/
def userMsgPlain (content : String) : Json :=
  Json.obj [("role", Json.str "user"), ("content", Json.str content)]

/-- The two-part user message of api.rs lines 83-89 (text part plus
image-URL part). -/
def userMsgImage (text url : String) : Json :=
  Json.obj [("role", Json.str "user"),
    ("content", Json.arr [
      Json.obj [("type", Json.str "text"), ("text", Json.str text)],
      Json.obj [("type", Json.str "image_url"),
        ("image_url", Json.obj [("url", Json.str url)])]])]

/-- The assistant message of api.rs lines 156-159 carrying the original
tool-calls array. -/
def assistantToolMsg (toolCalls : List Json) : Json :=
  Json.obj [("role", Json.str "assistant"), ("tool_calls", Json.arr toolCalls)]

/-- serde serialization of the Rust tuple `(String, bool)` returned by
`run_tool`: a tuple serializes as a JSON array, so the `json!` field
`"content": tool_result` in api.rs lines 182-186 and 268-272 produces a
two-element array, not a plain string. -/
def toolResultJson (tr : String × Bool) : Json :=
  Json.arr [Json.str tr.1, Json.bool tr.2]

/-- The tool message of api.rs lines 182-186 / 268-272. -/
def toolMsg (id : String) (tr : String × Bool) : Json :=
  Json.obj [("role", Json.str "tool"), ("tool_call_id", Json.str id),
    ("content", toolResultJson tr)]

/-- api.rs lines 99-115: the headers of the first request.  Token mode
(when a user auth token is given) loads the stored config and requires its
`app_id`; otherwise key mode sets the user/channel/bearer headers;
otherwise the `Api` "no credential" error. -/
def firstAuthHeaders (api_key user_auth_token : Option String)
    (user_id channel_id : String) (env : ApiEnv) :
    Except YuchiError (List (String × String)) :=
  match user_auth_token with
  | some token =>
    match env.loadConfig with
    | .error e => .error e
    | .ok cfg =>
      match cfg.app_id with
      | none => .error (.Config "No app ID set for user auth token.")
      | some app_id => .ok [("X-App-ID", app_id), ("X-User-Auth", token)]
  | none =>
    match api_key with
    | some key =>
      .ok [("X-User-ID", user_id), ("X-Channel-ID", channel_id),
           ("Authorization", "Bearer " ++ key)]
    | none => .error (.Api "No API key or user auth token provided.")

/-- api.rs lines 191-203 / 276-288: the headers of the second request.
Identical to the first-request logic except that the source has no `else`
branch: with neither credential the request would simply carry no custom
header (unreachable, since the first request already failed in that case). -/
def secondAuthHeaders (api_key user_auth_token : Option String)
    (user_id channel_id : String) (env : ApiEnv) :
    Except YuchiError (List (String × String)) :=
  match user_auth_token with
  | some token =>
    match env.loadConfig with
    | .error e => .error e
    | .ok cfg =>
      match cfg.app_id with
      | none => .error (.Config "No app ID set for user auth token.")
      | some app_id => .ok [("X-App-ID", app_id), ("X-User-Auth", token)]
  | none =>
    match api_key with
    | some key =>
      .ok [("X-User-ID", user_id), ("X-Channel-ID", channel_id),
           ("Authorization", "Bearer " ++ key)]
    | none => .ok []

/-- `choices[0].message` of a chat-completion response body. -/
def choiceMessage (j : Json) : Option Json :=
  ((j.get "choices").bind (fun cs => cs.getIdx 0)).bind
    (fun choice => choice.get "message")

/-- api.rs lines 147-152: the structured tool-calls array, when present. -/
def extractToolCalls (j : Json) : Option (List Json) :=
  ((choiceMessage j).bind (fun m => m.get "tool_calls")).bind Json.asArray

/-- api.rs lines 232-238 / 245-251 / 317-323: the first choice's textual
content, when present. -/
def extractContent (j : Json) : Option String :=
  ((choiceMessage j).bind (fun m => m.get "content")).bind Json.asStr

/-- First request body (api.rs lines 117-122). -/
def firstBody (model : String) (messages : List Json) : Json :=
  Json.obj [("model", Json.str model), ("messages", Json.arr messages),
    ("tools", Json.arr tool_schemas), ("tool_choice", Json.str "auto")]

/-- Second request body (api.rs lines 205-209 / 290-294): no `tools`,
`tool_choice` forced to "none". -/
def secondBody (model : String) (messages : List Json) : Json :=
  Json.obj [("model", Json.str model), ("messages", Json.arr messages),
    ("tool_choice", Json.str "none")]

/-- api.rs lines 161-187: process the structured tool-calls array in order.
For each entry: extract `id`, extract `function.arguments` (which must be
a JSON string), parse it as an object, extract its `command` string,
invoke `run_tool` (the (k+1)-th call consumes `env.toolEnv k`), and append
the tool message.  Any missing piece aborts with the `Api` error of the
source; an executor error propagates (`run_tool(...)?`).  Returns the tool
messages, the commands run, and the processes spawned. -/
def processToolCalls (env : ApiEnv) :
    Nat → List Json →
    Except YuchiError (List Json × List String × List (String × List String))
  | _, [] => .ok ([], [], [])
  | k, toolCall :: rest =>
    match (toolCall.get "id").bind Json.asStr with
    | none => .error (.Api "Missing tool call ID")
    | some tool_call_id =>
      match (toolCall.get "function").bind (fun f => f.get "arguments") with
      | none => .error (.Api "Missing tool arguments")
      | some arguments =>
        match arguments.asStr with
        | none => .error (.Api "Tool arguments must be a JSON string")
        | some args_str =>
          match env.parseArgsMap args_str with
          | .error e => .error (.Api ("Failed to parse tool arguments: " ++ e))
          | .ok args =>
            match (args.lookup "command").bind Json.asStr with
            | none => .error (.Api "Missing command parameter")
            | some command =>
              match (run_tool command (env.toolEnv k)).1 with
              | .error e => .error e
              | .ok tool_result =>
                match processToolCalls env (k + 1) rest with
                | .error e => .error e
                | .ok (msgs, cmds, sps) =>
                  .ok (toolMsg tool_call_id tool_result :: msgs,
                       command :: cmds, (run_tool command (env.toolEnv k)).2 ++ sps)

/-- The second round trip duplicated verbatim in api.rs at lines 189-241
(structured path) and 274-326 (fallback path): rebuild the auth headers,
POST the accumulated messages with `tool_choice: "none"`, map the failure
cases, and extract `choices[0].message.content` with the
"No response from tool execution." default. -/
def secondRound (env : ApiEnv) (headers2 : Except YuchiError (List (String × String)))
    (model : String) (messages : List Json) (req1 : Request)
    (cmds : List String) (sps : List (String × List String)) :
    Except YuchiError String × Trace :=
  match headers2 with
  | .error e => (.error e, ⟨[req1], cmds, sps⟩)
  | .ok h2 =>
    match env.secondSend with
    | .error e =>
      (.error (.Api ("Failed to send second request to ShapesAI API: " ++ e)),
       ⟨[req1, ⟨h2, secondBody model messages⟩], cmds, sps⟩)
    | .ok res2 =>
      if isSuccessStatus res2.status then
        match res2.jsonBody with
        | .error e =>
          (.error (.Api ("Failed to parse second API response: " ++ e)),
           ⟨[req1, ⟨h2, secondBody model messages⟩], cmds, sps⟩)
        | .ok j2 =>
          (.ok ((extractContent j2).getD "No response from tool execution."),
           ⟨[req1, ⟨h2, secondBody model messages⟩], cmds, sps⟩)
      else
        (.error (.Api ("Second API request failed with status: " ++
           env.statusDisplay res2.status ++ ". Response: " ++
           res2.text.getD "No response body")),
         ⟨[req1, ⟨h2, secondBody model messages⟩], cmds, sps⟩)

/-- api.rs lines 97-331: everything after the initial message list has been
built — auth headers, first POST, status mapping, response interpretation
(structured tool calls, fallback `<function>` envelope, or plain content). -/
def askWithMessages (env : ApiEnv) (api_key user_auth_token : Option String)
    (model user_id channel_id : String) (messages0 : List Json) :
    Except YuchiError String × Trace :=
  match firstAuthHeaders api_key user_auth_token user_id channel_id env with
  | .error e => (.error e, ⟨[], [], []⟩)
  | .ok h1 =>
    match env.firstSend with
    | .error e =>
      (.error (.Api ("Failed to send request to ShapesAI API: " ++ e)),
       ⟨[⟨h1, firstBody model messages0⟩], [], []⟩)
    | .ok res =>
      if isSuccessStatus res.status then
        match res.jsonBody with
        | .error e =>
          (.error (.Api ("Failed to parse API response: " ++ e)),
           ⟨[⟨h1, firstBody model messages0⟩], [], []⟩)
        | .ok j =>
          match extractToolCalls j with
          | some tool_calls =>
            match processToolCalls env 0 tool_calls with
            | .error e => (.error e, ⟨[⟨h1, firstBody model messages0⟩], [], []⟩)
            | .ok (toolMsgs, cmds, sps) =>
              secondRound env
                (secondAuthHeaders api_key user_auth_token user_id channel_id env)
                model (messages0 ++ [assistantToolMsg tool_calls] ++ toolMsgs)
                ⟨h1, firstBody model messages0⟩ cmds sps
          | none =>
            if strStartsWith ((extractContent j).getD "") "<function>" &&
                strEndsWith ((extractContent j).getD "") "</function>" then
              match (stripPre ((extractContent j).getD "") "<function>").bind
                  (fun s => stripSuf s "</function>") with
              | none =>
                (.error (.Api "Invalid function tag format"),
                 ⟨[⟨h1, firstBody model messages0⟩], [], []⟩)
              | some inner =>
                match env.parseJson inner with
                | .error e =>
                  (.error (.Api ("Failed to parse function arguments: " ++ e)),
                   ⟨[⟨h1, firstBody model messages0⟩], [], []⟩)
                | .ok args =>
                  match (args.get "command").bind Json.asStr with
                  | none =>
                    (.error (.Api "Missing command parameter"),
                     ⟨[⟨h1, firstBody model messages0⟩], [], []⟩)
                  | some command =>
                    match (run_tool command (env.toolEnv 0)).1 with
                    | .error e =>
                      (.error e, ⟨[⟨h1, firstBody model messages0⟩], [command],
                        (run_tool command (env.toolEnv 0)).2⟩)
                    | .ok tool_result =>
                      secondRound env
                        (secondAuthHeaders api_key user_auth_token user_id
                          channel_id env)
                        model (messages0 ++ [toolMsg "fallback" tool_result])
                        ⟨h1, firstBody model messages0⟩ [command]
                        (run_tool command (env.toolEnv 0)).2
            else
              (.ok ((extractContent j).getD ""), ⟨[⟨h1, firstBody model messages0⟩], [], []⟩)
      else
        (.error (.Api
          (if res.status = 429 then
            "Blame Shapes, I got rate-limited. Try again later."
          else if res.status = 404 then
            "The resource couldn\x27t be found."
          else if res.status = 403 then
            "I don\x27t have access to the AccessVerse."
          else
            "API request failed with status: " ++ env.statusDisplay res.status ++
            ". Response: " ++ res.text.getD "No response body")),
         ⟨[⟨h1, firstBody model messages0⟩], [], []⟩)

/-- api.rs `ask_shapesai`: adjust the prompt, validate and load the
optional image into a data-URL user message (exists/is_file check, read,
base64-encode, extension-based MIME guess — each failure is an `Image`
error raised before any network traffic), then run the request pipeline. -/
def ask_shapesai (prompt : String) (api_key user_auth_token : Option String)
    (model user_id channel_id : String) (image_path : Option String)
    (env : ApiEnv) : Except YuchiError String × Trace :=
  match image_path with
  | some imagePath =>
    if !(env.imageInfo.pathExists && env.imageInfo.isFile) then
      (.error (.Image ("Image file \x27" ++ imagePath ++
        "\x27 does not exist or is not a file")), ⟨[], [], []⟩)
    else
      match env.imageInfo.readResult with
      | .error e =>
        (.error (.Image ("Failed to read image file \x27" ++ imagePath ++
          "\x27: " ++ e)), ⟨[], [], []⟩)
      | .ok image_data =>
        match mimeForExt env.imageInfo.extension with
        | none =>
          (.error (.Image ("Unsupported image format for \x27" ++ imagePath ++
            "\x27. Use PNG or JPEG.")), ⟨[], [], []⟩)
        | some mime_type =>
          askWithMessages env api_key user_auth_token model user_id channel_id
            [userMsgImage (adjustedPrompt prompt true)
              ("data:" ++ mime_type ++ ";base64," ++ env.encodeBase64 image_data)]
  | none =>
    askWithMessages env api_key user_auth_token model user_id channel_id
      [userMsgPlain (adjustedPrompt prompt false)]

/-! Observation helpers used by the theorem statements. -/

/-- Whether a driver result is an `Image` error (of any message). -/
def isImageError : Except YuchiError String → Bool
  | .error (.Image _) => true
  | _ => false

/-- Whether the image-validation stage of `ask_shapesai` succeeds for the
probes recorded in the environment: the path exists and is a regular file,
`fs::read` succeeds, and the extension maps to a supported MIME type. -/
def imageStageOk (env : ApiEnv) : Bool :=
  env.imageInfo.pathExists && env.imageInfo.isFile &&
  (match env.imageInfo.readResult with
   | .ok _ => true
   | .error _ => false) &&
  (mimeForExt env.imageInfo.extension).isSome

/-- Whether a message object carries `role: "assistant"`. -/
def isAssistantRole (m : Json) : Bool :=
  match (m.get "role").bind Json.asStr with
  | some r => r = "assistant"
  | none => false

/-- Whether some message in the list carries `role: "assistant"`. -/
def hasAssistantMsg (msgs : List Json) : Bool :=
  msgs.any isAssistantRole

/-- The `messages` array of the last POST of a trace, when present. -/
def lastPostMessages (t : Trace) : Option (List Json) :=
  (t.posts.getLast?.bind (fun r => r.body.get "messages")).bind Json.asArray

/-! Concrete inputs used by counterexamples and witnesses. -/

/-- A `run_tool` environment whose confirmation input is `" y"`:
not the single character `y`/`Y`, yet trimming + lowercasing accepts it. -/
def toolEnvC3 : ToolEnv := ⟨.ok "/work", .ok " y", .ok ⟨true, "out", ""⟩⟩

/-- A `run_tool` environment that confirms with `"y"` and spawns a process
that exits successfully with stdout `"hi"`. -/
def toolEnvYes : ToolEnv := ⟨.ok "/work", .ok "y", .ok ⟨true, "hi", ""⟩⟩

/-- A first-response body carrying one structured tool call with id `c1`
whose `arguments` JSON string is stood in for by the opaque text `args1`
(the environment's arguments parser maps it to `{command: "echo hi"}`). -/
def toolCallC1 : Json :=
  Json.obj [("id", Json.str "c1"),
    ("function", Json.obj [("arguments", Json.str "args1")])]

/-- First-response body for the structured tool-call path. -/
def firstJsonC1 : Json :=
  Json.obj [("choices", Json.arr [Json.obj [("message",
    Json.obj [("tool_calls", Json.arr [toolCallC1])])]])]

/-- Second-response body whose first choice's content is `"done"`. -/
def doneJson : Json :=
  Json.obj [("choices", Json.arr [Json.obj [("message",
    Json.obj [("content", Json.str "done")])]])]

/-- Environment driving the structured tool-call path end to end. -/
def envC1 : ApiEnv where
  loadConfig := .ok ⟨none, none, none, none, none, none⟩
  imageInfo := ⟨false, false, .error "no file", none⟩
  encodeBase64 := fun _ => ""
  firstSend := .ok ⟨200, some "", .ok firstJsonC1⟩
  secondSend := .ok ⟨200, some "", .ok doneJson⟩
  parseArgsMap := fun s =>
    if s = "args1" then .ok [("command", Json.str "echo hi")] else .error "bad"
  parseJson := fun _ => .error "unused"
  toolEnv := fun _ => toolEnvYes
  statusDisplay := fun n => toString n

/-- First-response body whose first choice's content is the fallback
envelope around the opaque inner text `X` (the environment's JSON parser
maps `X` to `{command: "ls"}`). -/
def fallbackJson : Json :=
  Json.obj [("choices", Json.arr [Json.obj [("message",
    Json.obj [("content", Json.str "<function>X</function>")])]])]

/-- Environment driving the fallback `<function>` path end to end. -/
def envC2 : ApiEnv where
  loadConfig := .ok ⟨none, none, none, none, none, none⟩
  imageInfo := ⟨false, false, .error "no file", none⟩
  encodeBase64 := fun _ => ""
  firstSend := .ok ⟨200, some "", .ok fallbackJson⟩
  secondSend := .ok ⟨200, some "", .ok doneJson⟩
  parseArgsMap := fun _ => .error "unused"
  parseJson := fun s =>
    if s = "X" then .ok (Json.obj [("command", Json.str "ls")]) else .error "bad"
  toolEnv := fun _ => toolEnvYes
  statusDisplay := fun n => toString n

/-- Environment whose image probes fail (missing file). -/
def envC5 : ApiEnv := { envC2 with
  imageInfo := ⟨false, false, .error "missing", some "png"⟩ }

/-- Environment with a missing image and (in the counterexample) no
credentials supplied. -/
def envC6 : ApiEnv := { envC2 with
  imageInfo := ⟨false, false, .error "missing", some "txt"⟩ }

/-- Environment whose first request comes back with HTTP status 500 and
body text `"boom"`. -/
def envC7 : ApiEnv := { envC2 with
  firstSend := .ok ⟨500, some "boom", .error "not json"⟩
  statusDisplay := fun n => toString n }

/-- Environment for token-mode authentication: the stored config carries
app id `A`, and the first response is a plain text answer. -/
def envC9 : ApiEnv := { envC2 with
  loadConfig := .ok ⟨none, some "A", none, none, none, none⟩
  firstSend := .ok ⟨200, some "", .ok doneJson⟩ }

/-- The first POST issued in the `envC9` token-mode run. -/
def reqC9 : Request :=
  ((ask_shapesai "p" (some "k2") (some "T") "m" "u" "c" none envC9).2.posts).headD
    ⟨[], Json.null⟩

/-- Environment for the fallback-path witness of the implicit
no-assistant-message claim (same shape as `envC2`). -/
def envC10 : ApiEnv := { envC2 with
  parseJson := fun s =>
    if s = "X" then .ok (Json.obj [("command", Json.str "pwd")]) else .error "bad" }

/-! Helper lemmas shared by several claims. -/

/-- A string never equals a nonempty prefix glued onto itself. -/
lemma ne_append_self (pre q : String) (hpre : pre ≠ "") :
    q ≠ pre ++ q := by
  intro h
  have hlen := congrArg String.length h
  rw [String.length_append] at hlen
  have : pre.length = 0 := by omega
  exact hpre (String.ext (List.length_eq_zero.mp this))

/-- The posts issued by `secondRound`: always the first request, followed by
the second request (with the headers `secondAuthHeaders` produced and the
accumulated messages) unless rebuilding the headers failed. -/
lemma secondRound_posts_shape (env : ApiEnv)
    (h2res : Except YuchiError (List (String × String))) (model : String)
    (messages : List Json) (req1 : Request) (cmds : List String)
    (sps : List (String × List String)) :
    (secondRound env h2res model messages req1 cmds sps).2.posts = [req1] ∨
    ∃ hs2, h2res = .ok hs2 ∧
      (secondRound env h2res model messages req1 cmds sps).2.posts =
        [req1, ⟨hs2, secondBody model messages⟩] := by
  unfold secondRound
  split
  · exact Or.inl rfl
  · rename_i h2
    refine Or.inr ⟨h2, rfl, ?_⟩
    split
    · rfl
    · split
      · split
        · rfl
        · rfl
      · rfl

/-- The posts issued after the messages are built: the first request always
carries the first-auth headers and the first body; a second request, if
any, carries the headers `secondAuthHeaders` produced. -/
lemma askWithMessages_posts_shape (env : ApiEnv) (key tok : Option String)
    (model uid cid : String) (msgs0 : List Json) (hs : List (String × String))
    (h1 : firstAuthHeaders key tok uid cid env = .ok hs) :
    ∃ rest,
      (askWithMessages env key tok model uid cid msgs0).2.posts =
        ⟨hs, firstBody model msgs0⟩ :: rest ∧
      (rest = [] ∨ ∃ hs2 msgs2, secondAuthHeaders key tok uid cid env = .ok hs2 ∧
        rest = [⟨hs2, secondBody model msgs2⟩]) := by
  unfold askWithMessages
  split
  · rename_i e heq
    rw [h1] at heq
    exact Except.noConfusion heq
  · rename_i h1x heq
    rw [h1] at heq
    injection heq with hh
    subst hh
    split
    · exact ⟨[], rfl, Or.inl rfl⟩
    · split
      · split
        · exact ⟨[], rfl, Or.inl rfl⟩
        · split
          · rename_i tcs _
            split
            · exact ⟨[], rfl, Or.inl rfl⟩
            · rename_i msgs cmds sps _
              rcases secondRound_posts_shape env
                  (secondAuthHeaders key tok uid cid env) model
                  (msgs0 ++ [assistantToolMsg tcs] ++ msgs)
                  ⟨hs, firstBody model msgs0⟩ cmds sps with hsh | ⟨hs2, h2, hsh⟩
              · exact ⟨[], hsh, Or.inl rfl⟩
              · exact ⟨_, hsh, Or.inr ⟨hs2, _, h2, rfl⟩⟩
          · split
            · split
              · exact ⟨[], rfl, Or.inl rfl⟩
              · split
                · exact ⟨[], rfl, Or.inl rfl⟩
                · split
                  · exact ⟨[], rfl, Or.inl rfl⟩
                  · rename_i command _
                    split
                    · exact ⟨[], rfl, Or.inl rfl⟩
                    · rename_i tool_result _
                      rcases secondRound_posts_shape env
                          (secondAuthHeaders key tok uid cid env) model
                          (msgs0 ++ [toolMsg "fallback" tool_result])
                          ⟨hs, firstBody model msgs0⟩ [command]
                          (run_tool command (env.toolEnv 0)).2 with
                        hsh | ⟨hs2, h2, hsh⟩
                      · exact ⟨[], hsh, Or.inl rfl⟩
                      · exact ⟨_, hsh, Or.inr ⟨hs2, _, h2, rfl⟩⟩
            · exact ⟨[], rfl, Or.inl rfl⟩
      · exact ⟨[], rfl, Or.inl rfl⟩

/-- `ask_shapesai` either fails during image validation with no post at
all, or behaves like `askWithMessages` on some initial message list. -/
lemma ask_posts_shape (prompt : String) (key tok : Option String)
    (model uid cid : String) (ipath : Option String) (env : ApiEnv)
    (hs : List (String × String))
    (h1 : firstAuthHeaders key tok uid cid env = .ok hs) :
    (ask_shapesai prompt key tok model uid cid ipath env).2.posts = [] ∨
    ∃ msgs0 rest,
      (ask_shapesai prompt key tok model uid cid ipath env).2.posts =
        ⟨hs, firstBody model msgs0⟩ :: rest ∧
      (rest = [] ∨ ∃ hs2 msgs2, secondAuthHeaders key tok uid cid env = .ok hs2 ∧
        rest = [⟨hs2, secondBody model msgs2⟩]) := by
  unfold ask_shapesai
  cases ipath with
  | none =>
    rcases askWithMessages_posts_shape env key tok model uid cid
        [userMsgPlain (adjustedPrompt prompt false)] hs h1 with ⟨rest, hp, hr⟩
    exact Or.inr ⟨_, rest, hp, hr⟩
  | some ip =>
    cases hpf : (env.imageInfo.pathExists && env.imageInfo.isFile) with
    | false => exact Or.inl rfl
    | true =>
      cases hrd : env.imageInfo.readResult with
      | error e => exact Or.inl rfl
      | ok bs =>
        cases hmx : mimeForExt env.imageInfo.extension with
        | none => exact Or.inl rfl
        | some mt =>
          rcases askWithMessages_posts_shape env key tok model uid cid
              [userMsgImage (adjustedPrompt prompt true)
                ("data:" ++ mt ++ ";base64," ++ env.encodeBase64 bs)] hs h1 with
            ⟨rest, hp, hr⟩
          exact Or.inr ⟨_, rest, hp, hr⟩

/-- When the first-request auth headers fail to build and image validation
does not fail first, the driver surfaces exactly that error with no post. -/
lemma ask_headers_error (prompt : String) (key tok : Option String)
    (model uid cid : String) (ipath : Option String) (env : ApiEnv)
    (e : YuchiError)
    (himg : ipath = none ∨ imageStageOk env = true)
    (h1 : firstAuthHeaders key tok uid cid env = .error e) :
    (ask_shapesai prompt key tok model uid cid ipath env).1 = .error e ∧
    (ask_shapesai prompt key tok model uid cid ipath env).2.posts = [] := by
  have core : ∀ msgs0 : List Json,
      (askWithMessages env key tok model uid cid msgs0).1 = .error e ∧
      (askWithMessages env key tok model uid cid msgs0).2.posts = [] := by
    intro msgs0
    unfold askWithMessages
    rw [h1]
    exact ⟨rfl, rfl⟩
  rcases himg with hnone | hok
  · subst hnone
    unfold ask_shapesai
    exact core _
  · cases ipath with
    | none => unfold ask_shapesai; exact core _
    | some ip =>
      unfold imageStageOk at hok
      rw [Bool.and_eq_true, Bool.and_eq_true, Bool.and_eq_true] at hok
      obtain ⟨⟨⟨hex, hfl⟩, hrd⟩, hmm⟩ := hok
      unfold ask_shapesai
      rw [hex, hfl]
      cases hrr : env.imageInfo.readResult with
      | error er => rw [hrr] at hrd; simp at hrd
      | ok bs =>
        cases hme : mimeForExt env.imageInfo.extension with
        | none => rw [hme] at hmm; simp at hmm
        | some mt => exact core _

/-! Claim C3: confirmation gating of the tool executor. -/

/-- Claim C3 (counterexample): the confirmation input `" y"` is not the
single character `y` or `Y`, yet the executor proceeds: it spawns the
process and returns the success template, not the cancellation pair. -/
theorem C3_single_char_counterexample :
    (run_tool "ls" toolEnvC3).1 = .ok ("\x60ls\x60 succeeded:\nout", true) ∧
    (run_tool "ls" toolEnvC3).2 = [("ls", [])] ∧
    " y" ≠ "y" ∧ " y" ≠ "Y" := by
  refine ⟨rfl, rfl, by decide, by decide⟩

/-- Claim C3 (amended): for every confirmation input whose
whitespace-trimmed, lowercased form differs from "y", `run_tool` returns
the pair ("Command execution cancelled by user.", false) and spawns no
child process. -/
theorem C3_trimmed_cancellation (command : String) (env : ToolEnv)
    (dir conf : String)
    (hdir : env.currentDir = .ok dir)
    (hconf : env.confirmation = .ok conf)
    (hny : rustToLower (rustTrim conf) ≠ "y") :
    run_tool command env =
      (.ok ("Command execution cancelled by user.", false), []) := by
  unfold run_tool
  simp only [hdir, hconf]
  rw [if_pos hny]

/-- Claim C3 witness: the rejection "n" cancels without spawning. -/
theorem C3_trimmed_cancellation_witness :
    run_tool "ls" ⟨.ok "/work", .ok "n", .ok ⟨true, "out", ""⟩⟩ =
      (.ok ("Command execution cancelled by user.", false), []) :=
  C3_trimmed_cancellation "ls" _ "/work" "n" rfl rfl (by decide)

/-! Claim C4: the two outcome templates of a spawned command. -/

/-- Claim C4: for every confirmed command whose process spawns, the outcome
is Ok with exactly the success template (and flag true) on exit success,
and exactly the failure template (and flag false) otherwise. -/
theorem C4_outcome_templates (command : String) (env : ToolEnv)
    (dir conf program : String) (args : List String) (out : ProcOutput)
    (hdir : env.currentDir = .ok dir)
    (hconf : env.confirmation = .ok conf)
    (hy : rustToLower (rustTrim conf) = "y")
    (hsplit : splitWhitespace command = program :: args)
    (hspawn : env.spawnResult = .ok out) :
    (out.statusSuccess = true →
      run_tool command env =
        (.ok ("\x60" ++ command ++ "\x60 succeeded:\n" ++ out.stdout, true),
         [(program, args)])) ∧
    (out.statusSuccess = false →
      run_tool command env =
        (.ok ("\x60" ++ command ++ "\x60 failed:\n" ++ out.stderr, false),
         [(program, args)])) := by
  unfold run_tool
  simp only [hdir, hconf, hsplit, hspawn]
  rw [if_neg (by rw [hy]; exact fun h => h rfl)]
  constructor <;> intro h <;> rw [h] <;> rfl

/-- Claim C4 witness: `printf hi` exiting 0 with stdout "hi" yields the
success template, matching the spec's concrete test vector. -/
theorem C4_outcome_templates_witness :
    run_tool "printf hi" ⟨.ok "/work", .ok "y", .ok ⟨true, "hi", ""⟩⟩ =
      (.ok ("\x60printf hi\x60 succeeded:\nhi", true), [("printf", ["hi"])]) :=
  (C4_outcome_templates "printf hi" _ "/work" "y" "printf" ["hi"]
    ⟨true, "hi", ""⟩ rfl rfl (by decide) (by decide) rfl).1 rfl

/-- When there is no image, or the image stage succeeds, `ask_shapesai`
behaves as `askWithMessages` on some initial message list, so any property
of every `askWithMessages` outcome transfers. -/
lemma ask_image_pass (prompt : String) (key tok : Option String)
    (model uid cid : String) (ipath : Option String) (env : ApiEnv)
    (himg : ipath = none ∨ imageStageOk env = true)
    (P : Except YuchiError String × Trace → Prop)
    (hP : ∀ msgs0 : List Json, P (askWithMessages env key tok model uid cid msgs0)) :
    P (ask_shapesai prompt key tok model uid cid ipath env) := by
  cases ipath with
  | none => exact hP _
  | some ip =>
    rcases himg with hn | hok
    · exact absurd hn (by simp)
    · unfold imageStageOk at hok
      rw [Bool.and_eq_true, Bool.and_eq_true, Bool.and_eq_true] at hok
      obtain ⟨⟨⟨hex, hfl⟩, hrd⟩, hmime⟩ := hok
      unfold ask_shapesai
      rw [hex, hfl]
      cases hrr : env.imageInfo.readResult with
      | error er => rw [hrr] at hrd; simp at hrd
      | ok bs =>
        cases hme : mimeForExt env.imageInfo.extension with
        | none => rw [hme] at hmime; simp at hmime
        | some mt => exact hP _

/-! Claim C5: invalid image fails with an Image error and no network call. -/

/-- Claim C5: for every image path whose recorded probes show a missing or
non-regular file, or whose extension is not exactly png/jpg/jpeg, the
driver fails with an Image error and issues no POST (and runs no tool,
spawning nothing). -/
theorem C5_invalid_image_no_network (prompt model uid cid ip : String)
    (api_key tok : Option String) (env : ApiEnv)
    (hbad : (env.imageInfo.pathExists && env.imageInfo.isFile) = false ∨
      (env.imageInfo.extension ≠ some "png" ∧ env.imageInfo.extension ≠ some "jpg" ∧
       env.imageInfo.extension ≠ some "jpeg")) :
    isImageError (ask_shapesai prompt api_key tok model uid cid (some ip) env).1 = true ∧
    (ask_shapesai prompt api_key tok model uid cid (some ip) env).2.posts = [] ∧
    (ask_shapesai prompt api_key tok model uid cid (some ip) env).2.spawns = [] := by
  unfold ask_shapesai
  rcases hbad with hpf | ⟨h1, h2, h3⟩
  · rw [hpf]
    exact ⟨rfl, rfl, rfl⟩
  · cases hpf : (env.imageInfo.pathExists && env.imageInfo.isFile) with
    | false => exact ⟨rfl, rfl, rfl⟩
    | true =>
      cases hrd : env.imageInfo.readResult with
      | error e => exact ⟨rfl, rfl, rfl⟩
      | ok bs =>
        have hmx : mimeForExt env.imageInfo.extension = none := by
          cases hext : env.imageInfo.extension with
          | none => rfl
          | some e =>
            rw [hext] at h1 h2 h3
            have e1 : e ≠ "png" := fun hh => h1 (by rw [hh])
            have e2 : e ≠ "jpg" := fun hh => h2 (by rw [hh])
            have e3 : e ≠ "jpeg" := fun hh => h3 (by rw [hh])
            simp [mimeForExt, e1, e2, e3]
        rw [hmx]
        exact ⟨rfl, rfl, rfl⟩

/-- Claim C5 witness: a missing `img.txt` is rejected with no POST. -/
theorem C5_invalid_image_no_network_witness :
    isImageError (ask_shapesai "p" (some "k") none "m" "u" "c" (some "img.txt")
      envC5).1 = true ∧
    (ask_shapesai "p" (some "k") none "m" "u" "c" (some "img.txt") envC5).2.posts
      = [] ∧
    (ask_shapesai "p" (some "k") none "m" "u" "c" (some "img.txt") envC5).2.spawns
      = [] :=
  C5_invalid_image_no_network "p" "m" "u" "c" "img.txt" (some "k") none envC5
    (Or.inl rfl)

/-! Claim C6: missing credentials. -/

/-- Claim C6 (counterexample): with no credentials AND an invalid image
path, the driver fails with an Image error, not the Api "no credential"
error the claim promises for every credential-less invocation. -/
theorem C6_image_error_counterexample :
    (ask_shapesai "hi" none none "m" "u" "c" (some "img.txt") envC6).1 =
      .error (.Image "Image file \x27img.txt\x27 does not exist or is not a file") ∧
    (ask_shapesai "hi" none none "m" "u" "c" (some "img.txt") envC6).1 ≠
      .error (.Api "No API key or user auth token provided.") := by
  have h1 : (ask_shapesai "hi" none none "m" "u" "c" (some "img.txt") envC6).1 =
      .error (.Image "Image file \x27img.txt\x27 does not exist or is not a file") :=
    rfl
  refine ⟨h1, ?_⟩
  rw [h1]
  intro h
  injection h with h2
  exact YuchiError.noConfusion h2

/-- Claim C6 (amended): when neither credential is supplied and the image
stage does not fail first (no image, or a valid one), the driver fails with
the Api "no credential" error and issues no POST. -/
theorem C6_no_credentials_amended (prompt model uid cid : String)
    (ipath : Option String) (env : ApiEnv)
    (himg : ipath = none ∨ imageStageOk env = true) :
    (ask_shapesai prompt none none model uid cid ipath env).1 =
      .error (.Api "No API key or user auth token provided.") ∧
    (ask_shapesai prompt none none model uid cid ipath env).2.posts = [] :=
  ask_headers_error prompt none none model uid cid ipath env _ himg rfl

/-- Claim C6 witness: no credentials and no image. -/
theorem C6_no_credentials_amended_witness :
    (ask_shapesai "hi" none none "m" "u" "c" none envC6).1 =
      .error (.Api "No API key or user auth token provided.") ∧
    (ask_shapesai "hi" none none "m" "u" "c" none envC6).2.posts = [] :=
  C6_no_credentials_amended "hi" "m" "u" "c" none envC6 (Or.inl rfl)

/-! Claim C7: status-code mapping of the first request. -/

/-- Claim C7: every non-2xx status on the first request maps to an Api
error whose message is the fixed rate-limit text for 429 (whatever the
body), the fixed not-found text for 404, the fixed access text for 403,
and otherwise the generic text embedding the rendered status and the
response body. -/
theorem C7_status_mapping (prompt model uid cid : String)
    (api_key tok : Option String) (ipath : Option String) (env : ApiEnv)
    (hs : List (String × String)) (res : HttpResponse)
    (himg : ipath = none ∨ imageStageOk env = true)
    (hhead : firstAuthHeaders api_key tok uid cid env = .ok hs)
    (hsend : env.firstSend = .ok res)
    (hst : isSuccessStatus res.status = false) :
    (ask_shapesai prompt api_key tok model uid cid ipath env).1 =
      .error (.Api
        (if res.status = 429 then
          "Blame Shapes, I got rate-limited. Try again later."
        else if res.status = 404 then
          "The resource couldn\x27t be found."
        else if res.status = 403 then
          "I don\x27t have access to the AccessVerse."
        else
          "API request failed with status: " ++ env.statusDisplay res.status ++
          ". Response: " ++ res.text.getD "No response body")) := by
  refine ask_image_pass prompt api_key tok model uid cid ipath env himg
    (fun out => out.1 = _) ?_
  intro msgs0
  unfold askWithMessages
  split
  · rename_i e heq
    rw [hhead] at heq
    exact Except.noConfusion heq
  · rename_i h1x heq
    split
    · rename_i e heq2
      rw [hsend] at heq2
      exact Except.noConfusion heq2
    · rename_i res2 heq2
      rw [hsend] at heq2
      injection heq2 with hres
      subst hres
      rw [hst]
      rfl

/-- Claim C7 witness: status 500 with body "boom" produces the generic
message embedding both. -/
theorem C7_status_mapping_witness :
    (ask_shapesai "p" (some "k") none "m" "u" "c" none envC7).1 =
      .error (.Api "API request failed with status: 500. Response: boom") :=
  C7_status_mapping "p" "m" "u" "c" (some "k") none none envC7
    [("X-User-ID", "u"), ("X-Channel-ID", "c"), ("Authorization", "Bearer k")]
    ⟨500, some "boom", .error "not json"⟩ (Or.inl rfl) rfl rfl rfl

/-! Claim C8: the effective prompt. -/

/-- Claim C8: the effective prompt equals the fixed prefix followed by the
original prompt exactly when an image is attached and the prompt contains
"text" case-insensitively; without an image the outgoing user message
carries the raw prompt unchanged. -/
theorem C8_effective_prompt (p k model uid cid : String) (env : ApiEnv) :
    (∀ b : Bool,
      adjustedPrompt p b = "Extract the text from this image: " ++ p ↔
        b = true ∧ strContains (rustToLower p) "text" = true) ∧
    adjustedPrompt p false = p ∧
    ((ask_shapesai p (some k) none model uid cid none env).2.posts.head?.bind
      (fun r => r.body.get "messages")) = some (Json.arr [userMsgPlain p]) := by
  refine ⟨?_, rfl, ?_⟩
  · intro b
    constructor
    · intro h
      cases hx : strContains (rustToLower p) "text" with
      | true =>
        cases b with
        | true => exact ⟨rfl, rfl⟩
        | false =>
          have hp : adjustedPrompt p false = p := rfl
          rw [hp] at h
          exact absurd h
            (ne_append_self "Extract the text from this image: " p (by decide))
      | false =>
        have hp : adjustedPrompt p b = p := by
          unfold adjustedPrompt
          rw [hx]
          simp
        rw [hp] at h
        exact absurd h
          (ne_append_self "Extract the text from this image: " p (by decide))
    · rintro ⟨hb, hc⟩
      subst hb
      simp [adjustedPrompt, hc]
  · rcases askWithMessages_posts_shape env (some k) none model uid cid
        [userMsgPlain (adjustedPrompt p false)]
        [("X-User-ID", uid), ("X-Channel-ID", cid),
         ("Authorization", "Bearer " ++ k)] rfl with ⟨rest, hp, _⟩
    show ((askWithMessages env (some k) none model uid cid
        [userMsgPlain (adjustedPrompt p false)]).2.posts.head?.bind
      (fun r => r.body.get "messages")) = some (Json.arr [userMsgPlain p])
    rw [hp]
    rfl

/-! Claim C9: exactly one authentication scheme per request. -/

/-- Every post of one `ask_shapesai` run carries the same headers when the
two header builders agree. -/
lemma ask_posts_headers (prompt : String) (key tok : Option String)
    (model uid cid : String) (ipath : Option String) (env : ApiEnv)
    (hs : List (String × String))
    (h1 : firstAuthHeaders key tok uid cid env = .ok hs)
    (h2 : secondAuthHeaders key tok uid cid env = .ok hs) :
    ∀ r ∈ (ask_shapesai prompt key tok model uid cid ipath env).2.posts,
      r.headers = hs := by
  intro r hr
  rcases ask_posts_shape prompt key tok model uid cid ipath env hs h1 with
    hnil | ⟨msgs0, rest, hp, hrest⟩
  · rw [hnil] at hr
    cases hr
  · rw [hp] at hr
    rcases hrest with hre | ⟨hs2, msgs2, h2x, hre⟩
    · subst hre
      rcases List.mem_cons.mp hr with rfl | hr2
      · rfl
      · cases hr2
    · subst hre
      rw [h2] at h2x
      injection h2x with hh
      subst hh
      rcases List.mem_cons.mp hr with rfl | hr2
      · rfl
      · rcases List.mem_cons.mp hr2 with rfl | hr3
        · rfl
        · cases hr3

/-- Claim C9: a request never carries both schemes.  In token mode (which
wins even when an API key is also supplied) every post carries exactly the
X-App-ID/X-User-Auth pair, and a missing stored app id is the Config error
with no post; only in key mode does every post carry exactly the
X-User-ID/X-Channel-ID/bearer triple. -/
theorem C9_single_auth_scheme (p model uid cid : String)
    (api_key : Option String) (token : String) (ipath : Option String)
    (env : ApiEnv) (cfg : Config)
    (hload : env.loadConfig = .ok cfg) :
    (∀ a, cfg.app_id = some a →
      ∀ r ∈ (ask_shapesai p api_key (some token) model uid cid ipath env).2.posts,
        r.headers = [("X-App-ID", a), ("X-User-Auth", token)]) ∧
    ((ipath = none ∨ imageStageOk env = true) → cfg.app_id = none →
      (ask_shapesai p api_key (some token) model uid cid ipath env).1 =
        .error (.Config "No app ID set for user auth token.") ∧
      (ask_shapesai p api_key (some token) model uid cid ipath env).2.posts = []) ∧
    (∀ key, ∀ r ∈ (ask_shapesai p (some key) none model uid cid ipath env).2.posts,
      r.headers = [("X-User-ID", uid), ("X-Channel-ID", cid),
        ("Authorization", "Bearer " ++ key)]) := by
  refine ⟨?_, ?_, ?_⟩
  · intro a ha
    refine ask_posts_headers p api_key (some token) model uid cid ipath env _
      ?_ ?_
    · simp [firstAuthHeaders, hload, ha]
    · simp [secondAuthHeaders, hload, ha]
  · intro himg hnone
    refine ask_headers_error p api_key (some token) model uid cid ipath env _
      himg ?_
    simp [firstAuthHeaders, hload, hnone]
  · intro key
    exact ask_posts_headers p (some key) none model uid cid ipath env _ rfl rfl

/-- Claim C9 witness: in a concrete token-mode run the single post carries
exactly the app-id/auth-token header pair. -/
theorem C9_single_auth_scheme_witness :
    reqC9.headers = [("X-App-ID", "A"), ("X-User-Auth", "T")] :=
  (C9_single_auth_scheme "p" "m" "u" "c" (some "k2") "T" none envC9
    ⟨none, some "A", none, none, none, none⟩ rfl).1 "A" rfl reqC9
    (List.mem_cons_self reqC9 [])

/-! Shared evaluation lemmas for the fallback `<function>` path. -/

/-- When the first response carries no structured tool-calls array, its
content passes the envelope checks, the inner JSON parses with a string
`command`, and the executor returns Ok, `askWithMessages` reduces to the
second round on the message list extended by the single `fallback` tool
message. -/
lemma askWithMessages_fallback_eq (env : ApiEnv) (key tok : Option String)
    (model uid cid : String) (msgs0 : List Json) (hs : List (String × String))
    (res : HttpResponse) (j args : Json) (inner cmd : String)
    (tr : String × Bool)
    (h1 : firstAuthHeaders key tok uid cid env = .ok hs)
    (hsend : env.firstSend = .ok res)
    (hst : isSuccessStatus res.status = true)
    (hjson : res.jsonBody = .ok j)
    (htc : extractToolCalls j = none)
    (hstrip : (stripPre ((extractContent j).getD "") "<function>").bind
        (fun s => stripSuf s "</function>") = some inner)
    (hsw : strStartsWith ((extractContent j).getD "") "<function>" = true)
    (hew : strEndsWith ((extractContent j).getD "") "</function>" = true)
    (hparse : env.parseJson inner = .ok args)
    (hcmd : (args.get "command").bind Json.asStr = some cmd)
    (htool : (run_tool cmd (env.toolEnv 0)).1 = .ok tr) :
    askWithMessages env key tok model uid cid msgs0 =
      secondRound env (secondAuthHeaders key tok uid cid env) model
        (msgs0 ++ [toolMsg "fallback" tr]) ⟨hs, firstBody model msgs0⟩
        [cmd] (run_tool cmd (env.toolEnv 0)).2 := by
  unfold askWithMessages
  split
  · rename_i e heq
    rw [h1] at heq
    exact Except.noConfusion heq
  · rename_i hsx heq
    rw [h1] at heq
    injection heq with hh
    subst hh
    split
    · rename_i e heq2
      rw [hsend] at heq2
      exact Except.noConfusion heq2
    · rename_i resx heq2
      rw [hsend] at heq2
      injection heq2 with hres
      subst hres
      rw [hst, if_pos (show (true : Bool) = true from rfl)]
      split
      · rename_i e heq3
        rw [hjson] at heq3
        exact Except.noConfusion heq3
      · rename_i jx heq3
        rw [hjson] at heq3
        injection heq3 with hj
        subst hj
        split
        · rename_i tcs heq4
          rw [htc] at heq4
          exact Option.noConfusion heq4
        · rw [hsw, hew, if_pos (show (true && true) = true from rfl)]
          split
          · rename_i heq5
            rw [hstrip] at heq5
            exact Option.noConfusion heq5
          · rename_i innerx heq5
            rw [hstrip] at heq5
            injection heq5 with hi
            subst hi
            split
            · rename_i e heq6
              rw [hparse] at heq6
              exact Except.noConfusion heq6
            · rename_i argsx heq6
              rw [hparse] at heq6
              injection heq6 with ha
              subst ha
              split
              · rename_i heq7
                rw [hcmd] at heq7
                exact Option.noConfusion heq7
              · rename_i cmdx heq7
                rw [hcmd] at heq7
                injection heq7 with hc
                subst hc
                split
                · rename_i e heq8
                  rw [htool] at heq8
                  exact Except.noConfusion heq8
                · rename_i trx heq8
                  rw [htool] at heq8
                  injection heq8 with ht
                  subst ht
                  rfl

/-- A successful second round: the reply is the second response's content
and the trace gains the second post. -/
lemma secondRound_ok (env : ApiEnv) (hs2 : List (String × String))
    (model : String) (messages : List Json) (req1 : Request)
    (cmds : List String) (sps : List (String × List String))
    (res2 : HttpResponse) (j2 : Json) (reply : String)
    (hsend2 : env.secondSend = .ok res2)
    (hst2 : isSuccessStatus res2.status = true)
    (hjson2 : res2.jsonBody = .ok j2)
    (hreply : extractContent j2 = some reply) :
    secondRound env (.ok hs2) model messages req1 cmds sps =
      (.ok reply, ⟨[req1, ⟨hs2, secondBody model messages⟩], cmds, sps⟩) := by
  unfold secondRound
  split
  · rename_i e heq
    exact Except.noConfusion heq
  · rename_i h2x heq
    injection heq with hh
    subst hh
    split
    · rename_i e heq2
      rw [hsend2] at heq2
      exact Except.noConfusion heq2
    · rename_i res2x heq2
      rw [hsend2] at heq2
      injection heq2 with hr
      subst hr
      rw [hst2, if_pos (show (true : Bool) = true from rfl)]
      split
      · rename_i e heq3
        rw [hjson2] at heq3
        exact Except.noConfusion heq3
      · rename_i j2x heq3
        rw [hjson2] at heq3
        injection heq3 with hj
        subst hj
        rw [hreply]
        rfl

/-! Claim C2: the fallback `<function>` envelope path. -/

/-- Claim C2: with no structured tool-calls array and an
`<function>...</function>`-wrapped content, the driver parses the inner
JSON, extracts `command`, invokes the executor exactly once, appends one
tool message with the fixed placeholder id "fallback", issues a second
POST, and returns that POST's content. -/
theorem C2_fallback_path (p k model uid cid inner cmd reply : String)
    (env : ApiEnv) (res res2 : HttpResponse) (j j2 args : Json)
    (tr : String × Bool)
    (hsend : env.firstSend = .ok res)
    (hst : isSuccessStatus res.status = true)
    (hjson : res.jsonBody = .ok j)
    (htc : extractToolCalls j = none)
    (hstrip : (stripPre ((extractContent j).getD "") "<function>").bind
        (fun s => stripSuf s "</function>") = some inner)
    (hsw : strStartsWith ((extractContent j).getD "") "<function>" = true)
    (hew : strEndsWith ((extractContent j).getD "") "</function>" = true)
    (hparse : env.parseJson inner = .ok args)
    (hcmd : (args.get "command").bind Json.asStr = some cmd)
    (htool : (run_tool cmd (env.toolEnv 0)).1 = .ok tr)
    (hsend2 : env.secondSend = .ok res2)
    (hst2 : isSuccessStatus res2.status = true)
    (hjson2 : res2.jsonBody = .ok j2)
    (hreply : extractContent j2 = some reply) :
    (ask_shapesai p (some k) none model uid cid none env).1 = .ok reply ∧
    (ask_shapesai p (some k) none model uid cid none env).2.toolRuns = [cmd] ∧
    ((ask_shapesai p (some k) none model uid cid none env).2.posts.map
      (fun r => r.body.get "messages")) =
      [some (Json.arr [userMsgPlain p]),
       some (Json.arr [userMsgPlain p, toolMsg "fallback" tr])] := by
  have heq : ask_shapesai p (some k) none model uid cid none env =
      (.ok reply,
       ⟨[⟨[("X-User-ID", uid), ("X-Channel-ID", cid),
           ("Authorization", "Bearer " ++ k)],
          firstBody model [userMsgPlain (adjustedPrompt p false)]⟩,
         ⟨[("X-User-ID", uid), ("X-Channel-ID", cid),
           ("Authorization", "Bearer " ++ k)],
          secondBody model ([userMsgPlain (adjustedPrompt p false)] ++
            [toolMsg "fallback" tr])⟩],
        [cmd], (run_tool cmd (env.toolEnv 0)).2⟩) := by
    show askWithMessages env (some k) none model uid cid
        [userMsgPlain (adjustedPrompt p false)] = _
    rw [askWithMessages_fallback_eq env (some k) none model uid cid
      [userMsgPlain (adjustedPrompt p false)]
      [("X-User-ID", uid), ("X-Channel-ID", cid),
       ("Authorization", "Bearer " ++ k)]
      res j args inner cmd tr rfl hsend hst hjson htc hstrip hsw hew hparse
      hcmd htool]
    exact secondRound_ok env _ model _ _ [cmd] _ res2 j2 reply hsend2 hst2
      hjson2 hreply
  rw [heq]
  exact ⟨rfl, rfl, rfl⟩

/-- Claim C2 witness: a concrete fallback round trip with command `ls`. -/
theorem C2_fallback_path_witness :
    (ask_shapesai "p" (some "k") none "m" "u" "c" none envC2).1 = .ok "done" ∧
    (ask_shapesai "p" (some "k") none "m" "u" "c" none envC2).2.toolRuns =
      ["ls"] ∧
    ((ask_shapesai "p" (some "k") none "m" "u" "c" none envC2).2.posts.map
      (fun r => r.body.get "messages")) =
      [some (Json.arr [userMsgPlain "p"]),
       some (Json.arr [userMsgPlain "p",
         toolMsg "fallback" ("\x60ls\x60 succeeded:\nhi", true)])] :=
  C2_fallback_path "p" "k" "m" "u" "c" "X" "ls" "done" envC2
    ⟨200, some "", .ok fallbackJson⟩ ⟨200, some "", .ok doneJson⟩
    fallbackJson doneJson (Json.obj [("command", Json.str "ls")])
    ("\x60ls\x60 succeeded:\nhi", true)
    rfl rfl rfl rfl rfl rfl rfl rfl rfl rfl rfl rfl rfl rfl

/-! Claim C10 (implicit): no assistant message on the fallback path. -/

/-- Claim C10: on the fallback path the second request's message list is
exactly the original user message followed by the single `fallback` tool
message — no assistant message is ever appended. -/
theorem C10_fallback_no_assistant (p k model uid cid inner cmd reply : String)
    (env : ApiEnv) (res res2 : HttpResponse) (j j2 args : Json)
    (tr : String × Bool)
    (hsend : env.firstSend = .ok res)
    (hst : isSuccessStatus res.status = true)
    (hjson : res.jsonBody = .ok j)
    (htc : extractToolCalls j = none)
    (hstrip : (stripPre ((extractContent j).getD "") "<function>").bind
        (fun s => stripSuf s "</function>") = some inner)
    (hsw : strStartsWith ((extractContent j).getD "") "<function>" = true)
    (hew : strEndsWith ((extractContent j).getD "") "</function>" = true)
    (hparse : env.parseJson inner = .ok args)
    (hcmd : (args.get "command").bind Json.asStr = some cmd)
    (htool : (run_tool cmd (env.toolEnv 0)).1 = .ok tr)
    (hsend2 : env.secondSend = .ok res2)
    (hst2 : isSuccessStatus res2.status = true)
    (hjson2 : res2.jsonBody = .ok j2)
    (hreply : extractContent j2 = some reply) :
    lastPostMessages (ask_shapesai p (some k) none model uid cid none env).2 =
      some [userMsgPlain p, toolMsg "fallback" tr] ∧
    hasAssistantMsg ((lastPostMessages
      (ask_shapesai p (some k) none model uid cid none env).2).getD []) =
      false ∧
    (ask_shapesai p (some k) none model uid cid none env).2.posts.length = 2 := by
  have heq : ask_shapesai p (some k) none model uid cid none env =
      (.ok reply,
       ⟨[⟨[("X-User-ID", uid), ("X-Channel-ID", cid),
           ("Authorization", "Bearer " ++ k)],
          firstBody model [userMsgPlain (adjustedPrompt p false)]⟩,
         ⟨[("X-User-ID", uid), ("X-Channel-ID", cid),
           ("Authorization", "Bearer " ++ k)],
          secondBody model ([userMsgPlain (adjustedPrompt p false)] ++
            [toolMsg "fallback" tr])⟩],
        [cmd], (run_tool cmd (env.toolEnv 0)).2⟩) := by
    show askWithMessages env (some k) none model uid cid
        [userMsgPlain (adjustedPrompt p false)] = _
    rw [askWithMessages_fallback_eq env (some k) none model uid cid
      [userMsgPlain (adjustedPrompt p false)]
      [("X-User-ID", uid), ("X-Channel-ID", cid),
       ("Authorization", "Bearer " ++ k)]
      res j args inner cmd tr rfl hsend hst hjson htc hstrip hsw hew hparse
      hcmd htool]
    exact secondRound_ok env _ model _ _ [cmd] _ res2 j2 reply hsend2 hst2
      hjson2 hreply
  rw [heq]
  exact ⟨rfl, rfl, rfl⟩

/-- Claim C10 witness: a concrete fallback round trip with command `pwd`. -/
theorem C10_fallback_no_assistant_witness :
    lastPostMessages (ask_shapesai "q" (some "k") none "m" "u" "c" none
      envC10).2 =
      some [userMsgPlain "q",
        toolMsg "fallback" ("\x60pwd\x60 succeeded:\nhi", true)] ∧
    hasAssistantMsg ((lastPostMessages
      (ask_shapesai "q" (some "k") none "m" "u" "c" none envC10).2).getD []) =
      false ∧
    (ask_shapesai "q" (some "k") none "m" "u" "c" none envC10).2.posts.length
      = 2 :=
  C10_fallback_no_assistant "q" "k" "m" "u" "c" "X" "pwd" "done" envC10
    ⟨200, some "", .ok fallbackJson⟩ ⟨200, some "", .ok doneJson⟩
    fallbackJson doneJson (Json.obj [("command", Json.str "pwd")])
    ("\x60pwd\x60 succeeded:\nhi", true)
    rfl rfl rfl rfl rfl rfl rfl rfl rfl rfl rfl rfl rfl rfl

/-! Claim C1: the structured tool-call path (code bug in the tool message
content). -/

/-- Claim C1 (evaluation at the failing input): the driver does append the
assistant message carrying the original tool-calls array and then one tool
message per call with the matching id — but because `run_tool` returns the
Rust tuple `(String, bool)` and api.rs serializes that whole tuple as the
message `content`, the tool message content is the two-element JSON array
`[result text, succeeded]`, not the result text string the claim states. -/
theorem C1_structured_content_divergence :
    (ask_shapesai "run echo" (some "k") none "m" "u" "ch" none envC1).1 =
      .ok "done" ∧
    (ask_shapesai "run echo" (some "k") none "m" "u" "ch" none
      envC1).2.toolRuns = ["echo hi"] ∧
    ((ask_shapesai "run echo" (some "k") none "m" "u" "ch" none
      envC1).2.posts.map (fun r => r.body.get "messages")) =
      [some (Json.arr [userMsgPlain "run echo"]),
       some (Json.arr [userMsgPlain "run echo", assistantToolMsg [toolCallC1],
         Json.obj [("role", Json.str "tool"), ("tool_call_id", Json.str "c1"),
           ("content", Json.arr [Json.str "\x60echo hi\x60 succeeded:\nhi",
             Json.bool true])]])] ∧
    Json.arr [Json.str "\x60echo hi\x60 succeeded:\nhi", Json.bool true] ≠
      Json.str "\x60echo hi\x60 succeeded:\nhi" := by
  refine ⟨rfl, rfl, rfl, ?_⟩
  intro h
  exact Json.noConfusion h

end Yuchi
